import Mathlib

/-
Verification of the chatgpt-client module: the prompt-window construction
algorithm (buildPrompt), the response-budget calculation
(calculationPromptMaxTokens), the conversation cache lifecycle
(GetOrCreateConversation, GetConversation, ChangeConversationModel) and the
Ask entry point, shallowly embedded from the Go sources. Go byte strings are
Lean strings measured by UTF-8 byte size; Go ints are Lean integers; the
stateful LRU cache is explicit state passing; fallible operations return
Except.
-/

namespace ChatgptClient

/-- Byte length of a string, as Go's `len` on a `string` (UTF-8 byte count). -/
def blen (s : String) : Nat := s.utf8ByteSize

/-- A single chat turn (`Message` in the Go source): text, the optional
speaker label `User`, the assistant flag `IsChatGPT`, and the chat `Role`. -/
structure Message where
  Text : String
  User : String
  IsChatGPT : Bool
  Role : String
deriving DecidableEq

/-- The separator `"<|endoftext|>\n\n"` appended after each rendered
message (`endOfText` in `buildPrompt`). -/
def endOfText : String := "<|endoftext|>\n\n"

/-- How `buildPrompt`'s walk renders one message (the
`if message.IsChatGPT ...` branch of the Go loop body). The assistant label
is the hardcoded string `"ChatGPT"`: `buildPrompt` receives no assistant
name. -/
def renderMessage (m : Message) : String :=
  if m.IsChatGPT then "ChatGPT:\n\n" ++ m.Text
  else if m.User ≠ "" then m.User ++ ":\n\n" ++ m.Text
  else "User:\n\n" ++ m.Text

/-- `currentTextLength = len(currentMessage) + len(endOfText)` for a
message. -/
def lenWithSep (m : Message) : Nat := blen (renderMessage m) + blen endOfText

/-- A rendered message together with its separator. -/
def renderWithSep (m : Message) : String := renderMessage m ++ endOfText

/-- The `messages.Reverse().ForEach(...)` loop of `buildPrompt`: walk the
newest-first list threading `charCountRes` and `coreMessages`; stop early
when `maxLength > 0 && charCountRes+currentTextLength >= maxLength`,
otherwise accept the message by adding its length and prepending its
rendering. The first two components are exactly the Go loop state; the third
records the message that triggered the early stop (`none` when the walk
consumed the whole list). -/
def buildPromptLoop (maxLength : Int) :
    List Message → Nat → String → Nat × String × Option Message
  | [], charCountRes, coreMessages => (charCountRes, coreMessages, none)
  | m :: rest, charCountRes, coreMessages =>
    if 0 < maxLength ∧ maxLength ≤ ((charCountRes + lenWithSep m : Nat) : Int) then
      (charCountRes, coreMessages, some m)
    else
      buildPromptLoop maxLength rest (charCountRes + lenWithSep m)
        (renderMessage m ++ endOfText ++ coreMessages)

/-- The context header `"<context>\nCurrent date: <date>"`
(`contextMessage` in the Go source). -/
def contextMessage (context date : String) : String :=
  context ++ "\nCurrent date: " ++ date

/-- `buildPrompt` from the Go source. `messages` is the conversation history
in chronological (oldest-first) order, as stored in the `safe.List`; the
walk reverses it to newest-first. The result is
`contextMessage + endOfText + coreMessages + "ChatGPT:"`. -/
def buildPrompt (context date : String) (messages : List Message)
    (maxLength : Int) : String :=
  contextMessage context date ++ endOfText ++
    (buildPromptLoop maxLength messages.reverse
      (blen (contextMessage context date) + blen "ChatGPT:") "").2.1 ++
  "ChatGPT:"

/-- Sum of the lengths-with-separator of a list of messages. -/
def sumLen : List Message → Nat
  | [] => 0
  | m :: rest => lenWithSep m + sumLen rest

/-- Concatenation of a list of strings. -/
def sconcat : List String → String
  | [] => ""
  | s :: rest => s ++ sconcat rest

/-- Client `Config` (client.go). -/
structure Config where
  APIKey : String
  APIServer : String
  MaxResponseTokens : Int
  MaxConversations : Int
  ConversationMaxAge : Int
  ConversationContext : String
  ConversationLanguage : String
  ChatGPTName : String
  Proxy : String
deriving DecidableEq

/-- Per-conversation configuration, with the fields client.go references
(`ID`, `Context`, `Language`, `ChatGPTName`, `MaxAge`). -/
structure ConversationConfig where
  ID : String
  Context : String
  Language : String
  ChatGPTName : String
  MaxAge : Int
deriving DecidableEq

/-- Conversation state (spec section 3): identifier, settings, mutable
model, append-only history. -/
structure Conversation where
  ID : String
  Context : String
  Language : String
  ChatGPTName : String
  MaxAge : Int
  Model : String
  History : List Message
deriving DecidableEq

/-- One cache slot: the conversation and its absolute expiry instant. -/
structure CacheEntry where
  conversation : Conversation
  expireAt : Int
deriving DecidableEq

/-- Modelled from the spec: the bounded, item-level-expiring cache (the
external go-zoox `lru` package) backing the conversation store; an entry
accessed after its TTL has elapsed is treated as absent (lazily evicted).
Capacity-based LRU eviction is not modelled; no claim below depends on it. -/
structure ConversationsCache where
  entries : List (String × CacheEntry)
deriving DecidableEq

/-- Modelled from the spec: cache lookup with lazy expiry — a found entry
counts only while `now` is before its expiry instant. -/
def cacheGet (st : ConversationsCache) (now : Int) (key : String) :
    Option Conversation :=
  match st.entries.find? (fun e => e.1 == key) with
  | some e => if now < e.2.expireAt then some e.2.conversation else none
  | none => none

/-- Modelled from the spec: cache insertion under `key` with per-entry TTL
`maxAge`; replaces any previous entry for the key. -/
def cacheSet (st : ConversationsCache) (now : Int) (key : String)
    (c : Conversation) (maxAge : Int) : ConversationsCache :=
  ⟨(key, ⟨c, now + maxAge⟩) :: st.entries.filter (fun e => e.1 != key)⟩

/-- The `if cfg.ID == "" { cfg.ID = id }` defaulting step. -/
def defaultID (id : String) (cfg : ConversationConfig) : ConversationConfig :=
  if cfg.ID = "" then { cfg with ID := id } else cfg

/-- The `if cfg.MaxAge == 0 { cfg.MaxAge = DefaultConversationMaxAge }`
defaulting step. -/
def defaultMaxAge (defMaxAge : Int) (cfg : ConversationConfig) : ConversationConfig :=
  if cfg.MaxAge = 0 then { cfg with MaxAge := defMaxAge } else cfg

/-- The context defaulting step of `GetOrCreateConversation`. -/
def defaultContext (ccfg : Config) (cfg : ConversationConfig) : ConversationConfig :=
  if cfg.Context = "" ∧ ccfg.ConversationContext ≠ "" then
    { cfg with Context := ccfg.ConversationContext } else cfg

/-- The language defaulting step of `GetOrCreateConversation`. -/
def defaultLanguage (ccfg : Config) (cfg : ConversationConfig) : ConversationConfig :=
  if cfg.Language = "" ∧ ccfg.ConversationLanguage ≠ "" then
    { cfg with Language := ccfg.ConversationLanguage } else cfg

/-- The assistant-name defaulting step of `GetOrCreateConversation`. -/
def defaultName (ccfg : Config) (cfg : ConversationConfig) : ConversationConfig :=
  if cfg.ChatGPTName = "" then { cfg with ChatGPTName := ccfg.ChatGPTName } else cfg

/-- The sequence of defaultings at the top of `GetOrCreateConversation`
(client.go), in source order. `defMaxAge` stands for the
`DefaultConversationMaxAge` constant, whose numeric value is not among the
sources. -/
def applyDefaults (defMaxAge : Int) (ccfg : Config) (id : String)
    (cfg : ConversationConfig) : ConversationConfig :=
  defaultName ccfg (defaultLanguage ccfg (defaultContext ccfg
    (defaultMaxAge defMaxAge (defaultID id cfg))))

/-- Modelled from the spec: `NewConversation` (conversation.go is not among
the sources) constructs a fresh Conversation seeded with the already
defaulted config and an empty history; the initial model string is
unspecified there, taken as `""`. -/
def NewConversation (cfg : ConversationConfig) : Conversation :=
  ⟨cfg.ID, cfg.Context, cfg.Language, cfg.ChatGPTName, cfg.MaxAge, "", []⟩

/-- `GetOrCreateConversation` (client.go): default the config, look the
cache up under `cfg.ID`, return a hit unchanged; on a miss construct a new
conversation and insert it under `id` (not `cfg.ID`) with TTL `cfg.MaxAge`.
State-passing rendition of the Go receiver's mutable cache. -/
def GetOrCreateConversation (defMaxAge : Int) (ccfg : Config)
    (st : ConversationsCache) (now : Int) (id : String)
    (cfg : ConversationConfig) : Conversation × ConversationsCache :=
  match cacheGet st now (applyDefaults defMaxAge ccfg id cfg).ID with
  | some conv => (conv, st)
  | none =>
      (NewConversation (applyDefaults defMaxAge ccfg id cfg),
       cacheSet st now id (NewConversation (applyDefaults defMaxAge ccfg id cfg))
         (applyDefaults defMaxAge ccfg id cfg).MaxAge)

/-- `GetConversation` (client.go): a live entry, or the not-found error. -/
def GetConversation (st : ConversationsCache) (now : Int) (id : String) :
    Except String Conversation :=
  match cacheGet st now id with
  | some c => .ok c
  | none => .error ("conversation(id: " ++ id ++ ") not found")

/-- Modelled from the spec: `Conversation.SetModel` (conversation.go is not
among the sources) mutates the model field in place and reports no error. -/
def SetModel (c : Conversation) (model : String) : Conversation :=
  { c with Model := model }

/-- `ChangeConversationModel` (client.go): look the conversation up, then
set its model. The Go in-place mutation through the shared pointer is
rendered as the store with that entry's conversation updated. -/
def ChangeConversationModel (st : ConversationsCache) (now : Int)
    (id model : String) : Except String ConversationsCache :=
  match GetConversation st now id with
  | .error e => .error e
  | .ok _ =>
      .ok ⟨st.entries.map (fun e =>
        if e.1 = id then (e.1, ⟨SetModel e.2.conversation model, e.2.expireAt⟩)
        else e)⟩

/-- `calculationPromptMaxTokens` (client.go). The Go source computes this via
`float64` `math.Max`/`math.Min` and converts back to `int`; for the integer
magnitudes in use that detour is value-preserving, so the model uses integer
`max`/`min` directly. -/
def calculationPromptMaxTokens
    (questLength MaxRequestResponseTokens MaxResponseTokens : Int) : Int :=
  max MaxResponseTokens
    (min (MaxRequestResponseTokens - questLength) MaxResponseTokens)

/-- `openai.ModelGPT3_5Turbo` of the external openai client. -/
def ModelGPT3_5Turbo : String := "gpt-3.5-turbo"

/-- `openai.ModelGPT3_5Turbo0301` of the external openai client. -/
def ModelGPT3_5Turbo0301 : String := "gpt-3.5-turbo-0301"

/-- A role-tagged message of the chat completion request. -/
structure CreateChatCompletionMessage where
  Role : String
  Content : String
deriving DecidableEq

/-- Request of the external `CreateChatCompletion` call. The Go source
passes the float constant `0.1` as temperature; modelled as the rational
`1/10`. -/
structure CreateChatCompletionRequest where
  Model : String
  Messages : List CreateChatCompletionMessage
  MaxTokens : Int
  Temperature : Rat
deriving DecidableEq

/-- Request of the external `CreateCompletion` call. -/
structure CreateCompletionRequest where
  Model : String
  Prompt : String
  MaxTokens : Int
deriving DecidableEq

/-- One chat completion choice; `Content` is `Choices[i].Message.Content`. -/
structure ChatChoice where
  Content : String
deriving DecidableEq

/-- Successful chat completion response. -/
structure CreateChatCompletionResponse where
  Choices : List ChatChoice
deriving DecidableEq

/-- One plain completion choice. -/
structure CompletionChoice where
  Text : String
deriving DecidableEq

/-- Successful plain completion response. -/
structure CreateCompletionResponse where
  Choices : List CompletionChoice
deriving DecidableEq

/-- `AskConfig` (client.go). -/
structure AskConfig where
  Model : String
  Prompt : String
  Messages : List Message
  MaxRequestResponseTokens : Int
deriving DecidableEq

/-- The chat request `Ask` sends for chat-capable models: role-tagged copies
of `cfg.Messages`, max tokens from the running byte-length sum of the
texts. -/
def askChatRequest (ccfg : Config) (cfg : AskConfig) : CreateChatCompletionRequest :=
  ⟨cfg.Model, cfg.Messages.map (fun m => ⟨m.Role, m.Text⟩),
   calculationPromptMaxTokens (cfg.Messages.foldl (fun acc m => acc + blen m.Text) 0)
     cfg.MaxRequestResponseTokens ccfg.MaxResponseTokens,
   (1 : Rat) / 10⟩

/-- The completion request `Ask` sends for all other models. -/
def askCompletionRequest (ccfg : Config) (cfg : AskConfig) : CreateCompletionRequest :=
  ⟨cfg.Model, cfg.Prompt,
   calculationPromptMaxTokens (blen cfg.Prompt)
     cfg.MaxRequestResponseTokens ccfg.MaxResponseTokens⟩

/-- `Ask` (client.go), with the two outbound remote calls passed in as
function-valued collaborators returning `Except`. The Go code reads
`Choices[0]` of the successful response (a panic when `Choices` is empty);
the model reads the head with a default, and the theorems about the success
case only speak of non-empty `Choices`. `strings.TrimSpace` is
`String.trim`. -/
def Ask {E : Type}
    (createChatCompletion :
      CreateChatCompletionRequest → Except E CreateChatCompletionResponse)
    (createCompletion :
      CreateCompletionRequest → Except E CreateCompletionResponse)
    (ccfg : Config) (cfg : AskConfig) : Except E String :=
  if cfg.Model = ModelGPT3_5Turbo ∨ cfg.Model = ModelGPT3_5Turbo0301 then
    match createChatCompletion (askChatRequest ccfg cfg) with
    | .error e => .error e
    | .ok completion => .ok (completion.Choices.headD ⟨""⟩).Content.trim
  else
    match createCompletion (askCompletionRequest ccfg cfg) with
    | .error e => .error e
    | .ok completion => .ok (completion.Choices.headD ⟨""⟩).Text.trim

/-- The assistant-turn rendering the spec's words describe for a
configured assistant name: assistant turns labeled with the configured name.
Follows the spec text, for comparison against the source's
`renderMessage`. -/
def renderMessageSpec (assistantName : String) (m : Message) : String :=
  if m.IsChatGPT then assistantName ++ ":\n\n" ++ m.Text
  else if m.User ≠ "" then m.User ++ ":\n\n" ++ m.Text
  else "User:\n\n" ++ m.Text

/-- The prompt the spec's words describe for a configured assistant name
(unbounded case): configured label on assistant turns and configured
trailer. For comparison against the source's `buildPrompt`. -/
def buildPromptSpec (assistantName context date : String)
    (messages : List Message) : String :=
  contextMessage context date ++ endOfText ++
    sconcat (messages.map (fun m => renderMessageSpec assistantName m ++ endOfText)) ++
    (assistantName ++ ":")

/-- Fixture: a 30-byte context for the truncation counterexample. -/
def cCtx : String := "cccccccccccccccccccccccccccccc"

/-- Fixture: a two-byte user message. -/
def cMsg : Message := ⟨"hi", "", false, "user"⟩

/-- Fixture: a 40-byte user message (the older turn of the truncation
witness). -/
def wMsgOld : Message := ⟨"0123456789012345678901234567890123456789", "", false, "user"⟩

/-- Fixture: a short user message (the newer turn of the truncation
witness). -/
def wMsgNew : Message := ⟨"hi", "", false, "user"⟩

/-- Fixture: an assistant turn. -/
def wAssistantMsg : Message := ⟨"hello", "", true, "assistant"⟩

/-- Fixture: a client configuration. -/
def wClientCfg : Config := ⟨"", "", 500, 10, 0, "", "", "ChatGPT", ""⟩

/-- Fixture: a first conversation configuration. -/
def wCfgA : ConversationConfig := ⟨"", "ctxA", "en", "A", 100⟩

/-- Fixture: a second, different conversation configuration. -/
def wCfgB : ConversationConfig := ⟨"", "ctxB", "fr", "B", 200⟩

/-- Fixture: a conversation configuration whose `ID` differs from the
call's `id`. -/
def wCfgOther : ConversationConfig := ⟨"other", "ctx", "", "B", 50⟩

/-- Fixture: a stored conversation. -/
def wConv : Conversation := ⟨"conv1", "", "", "ChatGPT", 100, "gpt-3.5-turbo", []⟩

/-- Fixture: a store holding `wConv` under "conv1" until instant 100. -/
def wSt : ConversationsCache := ⟨[("conv1", ⟨wConv, 100⟩)]⟩

/-- Fixture: a chat collaborator that always succeeds with one choice. -/
def wChatOK : CreateChatCompletionRequest → Except String CreateChatCompletionResponse :=
  fun _ => .ok ⟨[⟨" hi "⟩]⟩

/-- Fixture: a completion collaborator that always fails. -/
def wComplErr : CreateCompletionRequest → Except String CreateCompletionResponse :=
  fun _ => .error "remote failure"

theorem blen_append (a b : String) : blen (a ++ b) = blen a + blen b := by
  cases a with
  | mk la =>
    cases b with
    | mk lb =>
      show (String.mk (la ++ lb)).utf8ByteSize = _
      simp [blen]

theorem blen_empty : blen "" = 0 := rfl

theorem blen_endOfText : blen endOfText = 15 := by decide

theorem blen_chatgpt : blen "ChatGPT:" = 8 := by decide

theorem sconcat_append (a b : List String) :
    sconcat (a ++ b) = sconcat a ++ sconcat b := by
  induction a with
  | nil => simp [sconcat]
  | cons s rest ih => simp [sconcat, ih, String.append_assoc]

theorem blen_sconcat_renderWithSep (l : List Message) :
    blen (sconcat (l.map renderWithSep)) = sumLen l := by
  induction l with
  | nil => simp [sconcat, blen_empty, sumLen]
  | cons m rest ih =>
    simp [sconcat, blen_append, renderWithSep, lenWithSep, sumLen, ih]

theorem sumLen_append (a b : List Message) :
    sumLen (a ++ b) = sumLen a + sumLen b := by
  induction a with
  | nil => simp [sumLen]
  | cons m rest ih => simp [sumLen, ih]; omega

theorem sumLen_reverse (l : List Message) : sumLen l.reverse = sumLen l := by
  induction l with
  | nil => rfl
  | cons m rest ih => simp [sumLen, sumLen_append, ih]; omega

/-- With a non-positive `maxLength` the walk never stops early: it accepts
the whole newest-first list, prepending as it goes, so the core block comes
out in chronological order. -/
theorem buildPromptLoop_no_limit (maxLength : Int) (h : ¬ 0 < maxLength) :
    ∀ (l : List Message) (n : Nat) (core : String),
    buildPromptLoop maxLength l n core
      = (n + sumLen l, sconcat (l.reverse.map renderWithSep) ++ core, none) := by
  intro l
  induction l with
  | nil => intro n core; simp [buildPromptLoop, sumLen, sconcat]
  | cons m rest ih =>
    intro n core
    rw [buildPromptLoop, if_neg (by tauto), ih]
    refine Prod.ext ?_ (Prod.ext ?_ rfl)
    · simp [sumLen]; omega
    · simp [sconcat_append, sconcat, renderWithSep, String.append_assoc]

/-- If the walk stopped early, it stopped at position `j` of the walked
(newest-first) list: exactly the first `j` entries were accepted, message
`j` triggered the stop, the stop condition held there, and the accumulated
count stayed strictly below the budget throughout the accepted prefix. -/
theorem buildPromptLoop_stop (maxLength : Int) :
    ∀ (l : List Message) (n : Nat) (core : String) (m : Message),
    (buildPromptLoop maxLength l n core).2.2 = some m →
    ∃ j, ∃ hj : j < l.length,
      m = l.get ⟨j, hj⟩ ∧
      buildPromptLoop maxLength l n core
        = (n + sumLen (l.take j),
           sconcat ((l.take j).reverse.map renderWithSep) ++ core, some m) ∧
      0 < maxLength ∧
      maxLength ≤ ((n + sumLen (l.take j) + lenWithSep m : Nat) : Int) ∧
      (((n : Int) < maxLength) → ((n + sumLen (l.take j) : Nat) : Int) < maxLength) := by
  intro l
  induction l with
  | nil => intro n core m h; simp [buildPromptLoop] at h
  | cons m0 rest ih =>
    intro n core m h
    by_cases hc : 0 < maxLength ∧ maxLength ≤ ((n + lenWithSep m0 : Nat) : Int)
    · rw [buildPromptLoop, if_pos hc] at h ⊢
      obtain rfl : m0 = m := by simpa using h
      refine ⟨0, by simp, by simp, ?_, hc.1, ?_, ?_⟩
      · simp [sumLen, sconcat]
      · simpa [sumLen] using hc.2
      · intro h2; simpa [sumLen] using h2
    · rw [buildPromptLoop, if_neg hc] at h ⊢
      obtain ⟨j, hj, hm, heq, hpos, hstop, hlt⟩ :=
        ih (n + lenWithSep m0) (renderMessage m0 ++ endOfText ++ core) m h
      have hc2 : ((n + lenWithSep m0 : Nat) : Int) < maxLength := by
        rcases not_and_or.mp hc with h1 | h1
        · exact absurd hpos h1
        · omega
      refine ⟨j + 1, by simpa using Nat.succ_lt_succ hj, by simpa using hm, ?_,
        hpos, ?_, ?_⟩
      · rw [heq]
        refine Prod.ext ?_ (Prod.ext ?_ rfl)
        · simp [sumLen]; omega
        · simp [sconcat_append, sconcat, renderWithSep, String.append_assoc]
      · simp only [List.take_succ_cons, sumLen] at *
        push_cast at *
        omega
      · intro _
        have := hlt hc2
        simp only [List.take_succ_cons, sumLen] at *
        push_cast at *
        omega

/-- Every rendered message, separator included, occupies at least 18
bytes: the separator is 15 bytes and every speaker label contributes at
least `":\n\n"`. -/
theorem lenWithSep_ge (m : Message) : 18 ≤ lenWithSep m := by
  unfold lenWithSep renderMessage
  have h10 : blen "ChatGPT:\n\n" = 10 := by decide
  have h3 : blen ":\n\n" = 3 := by decide
  have h7 : blen "User:\n\n" = 7 := by decide
  split
  · rw [blen_append]; rw [blen_endOfText]; omega
  · split
    · rw [String.append_assoc, blen_append, blen_append]; rw [blen_endOfText]; omega
    · rw [blen_append]; rw [blen_endOfText]; omega

theorem getOrCreate_hit (defMaxAge : Int) (ccfg : Config) (st : ConversationsCache)
    (now : Int) (id : String) (cfg : ConversationConfig) (conv : Conversation)
    (h : cacheGet st now (applyDefaults defMaxAge ccfg id cfg).ID = some conv) :
    GetOrCreateConversation defMaxAge ccfg st now id cfg = (conv, st) := by
  unfold GetOrCreateConversation
  rw [h]

theorem getOrCreate_miss (defMaxAge : Int) (ccfg : Config) (st : ConversationsCache)
    (now : Int) (id : String) (cfg : ConversationConfig)
    (h : cacheGet st now (applyDefaults defMaxAge ccfg id cfg).ID = none) :
    GetOrCreateConversation defMaxAge ccfg st now id cfg
      = (NewConversation (applyDefaults defMaxAge ccfg id cfg),
         cacheSet st now id (NewConversation (applyDefaults defMaxAge ccfg id cfg))
           (applyDefaults defMaxAge ccfg id cfg).MaxAge) := by
  unfold GetOrCreateConversation
  rw [h]

theorem cacheGet_set_same (st : ConversationsCache) (t t' : Int) (k : String)
    (c : Conversation) (a : Int) :
    cacheGet (cacheSet st t k c a) t' k
      = if t' < t + a then some c else none := by
  simp [cacheGet, cacheSet]

theorem cacheGet_set_other (st : ConversationsCache) (t t' : Int) (k k' : String)
    (c : Conversation) (a : Int) (h : k' ≠ k) :
    cacheGet (cacheSet st t k c a) t' k' = cacheGet st t' k' := by
  unfold cacheGet cacheSet
  rw [List.find?_cons_of_neg _ (by simpa using fun h2 => (h h2.symm).elim)]
  rw [List.find?_filter]
  have hp : (fun (e : String × CacheEntry) => decide ((e.1 != k) = true ∧ (e.1 == k') = true))
      = fun (e : String × CacheEntry) => e.1 == k' := by
    funext e
    by_cases he : e.1 = k' <;> simp [he, h]
  rw [hp]

theorem defaultName_ID (ccfg : Config) (cfg : ConversationConfig) :
    (defaultName ccfg cfg).ID = cfg.ID := by
  unfold defaultName; split <;> rfl

theorem defaultLanguage_ID (ccfg : Config) (cfg : ConversationConfig) :
    (defaultLanguage ccfg cfg).ID = cfg.ID := by
  unfold defaultLanguage; split <;> rfl

theorem defaultContext_ID (ccfg : Config) (cfg : ConversationConfig) :
    (defaultContext ccfg cfg).ID = cfg.ID := by
  unfold defaultContext; split <;> rfl

theorem defaultMaxAge_ID (d : Int) (cfg : ConversationConfig) :
    (defaultMaxAge d cfg).ID = cfg.ID := by
  unfold defaultMaxAge; split <;> rfl

theorem defaultID_ID (id : String) (cfg : ConversationConfig) :
    (defaultID id cfg).ID = if cfg.ID = "" then id else cfg.ID := by
  unfold defaultID; split <;> rfl

theorem defaultName_MaxAge (ccfg : Config) (cfg : ConversationConfig) :
    (defaultName ccfg cfg).MaxAge = cfg.MaxAge := by
  unfold defaultName; split <;> rfl

theorem defaultLanguage_MaxAge (ccfg : Config) (cfg : ConversationConfig) :
    (defaultLanguage ccfg cfg).MaxAge = cfg.MaxAge := by
  unfold defaultLanguage; split <;> rfl

theorem defaultContext_MaxAge (ccfg : Config) (cfg : ConversationConfig) :
    (defaultContext ccfg cfg).MaxAge = cfg.MaxAge := by
  unfold defaultContext; split <;> rfl

theorem defaultMaxAge_MaxAge (d : Int) (cfg : ConversationConfig) :
    (defaultMaxAge d cfg).MaxAge = if cfg.MaxAge = 0 then d else cfg.MaxAge := by
  unfold defaultMaxAge; split <;> rfl

theorem defaultID_MaxAge (id : String) (cfg : ConversationConfig) :
    (defaultID id cfg).MaxAge = cfg.MaxAge := by
  unfold defaultID; split <;> rfl

theorem applyDefaults_ID (defMaxAge : Int) (ccfg : Config) (id : String)
    (cfg : ConversationConfig) :
    (applyDefaults defMaxAge ccfg id cfg).ID
      = if cfg.ID = "" then id else cfg.ID := by
  rw [applyDefaults, defaultName_ID, defaultLanguage_ID, defaultContext_ID,
    defaultMaxAge_ID, defaultID_ID]

theorem applyDefaults_MaxAge (defMaxAge : Int) (ccfg : Config) (id : String)
    (cfg : ConversationConfig) :
    (applyDefaults defMaxAge ccfg id cfg).MaxAge
      = if cfg.MaxAge = 0 then defMaxAge else cfg.MaxAge := by
  rw [applyDefaults, defaultName_MaxAge, defaultLanguage_MaxAge, defaultContext_MaxAge,
    defaultMaxAge_MaxAge, defaultID_MaxAge]

theorem cacheGet_eq_some (st : ConversationsCache) (t : Int) (k : String)
    (c : Conversation) :
    cacheGet st t k = some c ↔
      ∃ e, st.entries.find? (fun x => x.1 == k) = some e ∧
        t < e.2.expireAt ∧ e.2.conversation = c := by
  unfold cacheGet
  cases hfind : st.entries.find? (fun x => x.1 == k) with
  | none => simp
  | some e =>
    show (if t < e.2.expireAt then some e.2.conversation else none) = some c ↔ _
    constructor
    · intro h
      by_cases hlt : t < e.2.expireAt
      · rw [if_pos hlt] at h
        exact ⟨e, rfl, hlt, Option.some.inj h⟩
      · rw [if_neg hlt] at h
        exact Option.noConfusion h
    · rintro ⟨e', he', hlt, hc⟩
      obtain rfl : e = e' := Option.some.inj he'
      rw [if_pos hlt]
      exact congrArg some hc

/-- C3: buildPrompt on context "You are helpful", date "2024-01-01", the
two-message chronological history (user "hi", assistant "hello") and
maxLength 0 produces exactly the example byte string of the spec. -/
theorem buildPrompt_example_scenario :
    buildPrompt "You are helpful" "2024-01-01"
      [⟨"hi", "", false, "user"⟩, ⟨"hello", "", true, "assistant"⟩] 0 =
    "You are helpful\nCurrent date: 2024-01-01<|endoftext|>\n\nUser:\n\nhi<|endoftext|>\n\nChatGPT:\n\nhello<|endoftext|>\n\nChatGPT:" := by
  decide

/-- C2: with maxLength at most 0 the prompt contains every history message,
rendered whole and in chronological (oldest-first) order, between the
context header and the trailer, although the walk runs newest-first. -/
theorem buildPrompt_unbounded (context date : String) (history : List Message)
    (maxLength : Int) (h : maxLength ≤ 0) :
    buildPrompt context date history maxLength
      = contextMessage context date ++ endOfText ++
        sconcat (history.map renderWithSep) ++ "ChatGPT:" := by
  unfold buildPrompt
  rw [buildPromptLoop_no_limit maxLength (by omega) history.reverse _ ""]
  simp [String.append_assoc]

/-- C2 witness: the unbounded theorem applied at maxLength 0 and a concrete
one-message history. -/
theorem buildPrompt_unbounded_witness :
    (0 : Int) ≤ 0 ∧
    buildPrompt "a" "b" [wMsgNew] 0
      = contextMessage "a" "b" ++ endOfText ++
        sconcat (([wMsgNew] : List Message).map renderWithSep) ++ "ChatGPT:" :=
  ⟨le_refl 0, buildPrompt_unbounded "a" "b" [wMsgNew] 0 (le_refl 0)⟩

/-- C1 counterexample: the claimed bound fails as stated. With a 30-byte
context, empty date, maxLength 1 and a single user message "hi", the walk
stops at that message (so the claim's antecedent holds), yet the produced
prompt is 68 bytes long while maxLength plus the triggering message's
length-with-separator is 1 + 24 = 25: the fixed header and trailer alone
already exceed the budget. -/
theorem buildPrompt_truncation_bound_counterexample :
    (buildPromptLoop 1 ([cMsg] : List Message).reverse
      (blen (contextMessage cCtx "") + blen "ChatGPT:") "").2.2 = some cMsg ∧
    ¬ ((blen (buildPrompt cCtx "" [cMsg] 1) : Int) < 1 + (lenWithSep cMsg : Nat)) := by
  constructor
  · decide
  · decide

/-- C1 (amended): when the walk stops at a triggering message and the fixed
overhead (header plus trailer) is itself below maxLength, the prompt keeps
exactly the newest `j` messages, whole and in chronological order — the
triggering message and everything older excluded — and its total byte length
is strictly below maxLength plus the triggering message's
length-with-separator. The overhead condition is what the counterexample
forces; the claim as stated omits it. -/
theorem buildPrompt_truncation_boundary (context date : String)
    (history : List Message) (maxLength : Int) (m : Message)
    (hstop : (buildPromptLoop maxLength history.reverse
      (blen (contextMessage context date) + blen "ChatGPT:") "").2.2 = some m)
    (hfit : ((blen (contextMessage context date) + blen "ChatGPT:" : Nat) : Int)
      < maxLength) :
    ∃ j, ∃ hj : j < history.reverse.length,
      m = history.reverse.get ⟨j, hj⟩ ∧
      0 < maxLength ∧
      buildPrompt context date history maxLength
        = contextMessage context date ++ endOfText ++
          sconcat ((history.reverse.take j).reverse.map renderWithSep) ++ "ChatGPT:" ∧
      ((blen (buildPrompt context date history maxLength) : Nat) : Int)
        < maxLength + (lenWithSep m : Nat) := by
  obtain ⟨j, hj, hm, heq, hpos, hstop2, hlt⟩ :=
    buildPromptLoop_stop maxLength history.reverse _ "" m hstop
  refine ⟨j, hj, hm, hpos, ?_, ?_⟩
  · unfold buildPrompt
    rw [heq]
    simp
  · have hb : blen (buildPrompt context date history maxLength)
        = blen (contextMessage context date) + blen "ChatGPT:"
          + sumLen (history.reverse.take j) + 15 := by
      unfold buildPrompt
      rw [heq]
      simp only [blen_append, blen_endOfText, blen_empty]
      rw [blen_sconcat_renderWithSep, sumLen_reverse]
      omega
    have h18 := lenWithSep_ge m
    have hlt2 := hlt hfit
    rw [hb]
    push_cast at *
    omega

/-- C1 witness: the amended truncation theorem applied to a concrete
two-message history with maxLength 100, where the newer message is kept and
the older one triggers the stop. -/
theorem buildPrompt_truncation_boundary_witness :
    ∃ j, ∃ hj : j < ([wMsgOld, wMsgNew] : List Message).reverse.length,
      wMsgOld = ([wMsgOld, wMsgNew] : List Message).reverse.get ⟨j, hj⟩ ∧
      0 < (100 : Int) ∧
      buildPrompt "c" "d" [wMsgOld, wMsgNew] 100
        = contextMessage "c" "d" ++ endOfText ++
          sconcat ((([wMsgOld, wMsgNew] : List Message).reverse.take j).reverse.map
            renderWithSep) ++ "ChatGPT:" ∧
      ((blen (buildPrompt "c" "d" [wMsgOld, wMsgNew] 100) : Nat) : Int)
        < 100 + (lenWithSep wMsgOld : Nat) :=
  buildPrompt_truncation_boundary "c" "d" [wMsgOld, wMsgNew] 100 wMsgOld
    (by decide) (by decide)

/-- C4 counterexample: the prompt is not labeled with a configured
assistant name. At a concrete assistant-turn history the source's output
differs from the spec-worded output for the configured name "Bot", and
equals the byte string whose assistant label and trailer are the hardcoded
"ChatGPT". -/
theorem buildPrompt_assistant_name_counterexample :
    buildPrompt "c" "d" [⟨"hello", "", true, "assistant"⟩] 0
      ≠ buildPromptSpec "Bot" "c" "d" [⟨"hello", "", true, "assistant"⟩] ∧
    buildPrompt "c" "d" [⟨"hello", "", true, "assistant"⟩] 0
      = "c\nCurrent date: d<|endoftext|>\n\nChatGPT:\n\nhello<|endoftext|>\n\nChatGPT:" := by
  constructor
  · decide
  · decide

/-- C4 (amended): assistant turns are always rendered with the hardcoded
label "ChatGPT" and the trailer is always the hardcoded "ChatGPT:";
buildPrompt receives no assistant-name configuration, so a configured name
never appears. -/
theorem buildPrompt_hardcoded_assistant_label (context date : String)
    (history : List Message) (maxLength : Int) (m : Message)
    (hm : m.IsChatGPT = true) :
    renderMessage m = "ChatGPT:\n\n" ++ m.Text ∧
    ∃ s, buildPrompt context date history maxLength = s ++ "ChatGPT:" := by
  constructor
  · unfold renderMessage
    rw [if_pos hm]
  · exact ⟨_, rfl⟩

/-- C4 witness: the hardcoded-label theorem applied to a concrete assistant
turn. -/
theorem buildPrompt_hardcoded_assistant_label_witness :
    renderMessage wAssistantMsg = "ChatGPT:\n\n" ++ wAssistantMsg.Text ∧
    ∃ s, buildPrompt "c" "d" [wAssistantMsg] 0 = s ++ "ChatGPT:" :=
  buildPrompt_hardcoded_assistant_label "c" "d" [wAssistantMsg] 0 wAssistantMsg rfl

/-- C5: calculationPromptMaxTokens equals
max(minResponseBudget, min(maxRequestResponseBudget − promptLength,
minResponseBudget)) for all integer inputs, and takes the value 50 at the
three quoted argument triples. -/
theorem calculationPromptMaxTokens_formula :
    (∀ p b r : Int, calculationPromptMaxTokens p b r = max r (min (b - p) r)) ∧
    calculationPromptMaxTokens 100 1000 50 = 50 ∧
    calculationPromptMaxTokens 100 120 50 = 50 ∧
    calculationPromptMaxTokens 10 1000 50 = 50 :=
  ⟨fun _ _ _ => rfl, by decide, by decide, by decide⟩

/-- C6: calculationPromptMaxTokens is identically its third argument
(MaxResponseTokens), independent of the prompt length and the combined
request+response cap, because min(x, a) is at most a and max(a, min(x, a))
is a. -/
theorem calculationPromptMaxTokens_constant (p b r : Int) :
    calculationPromptMaxTokens p b r = r :=
  max_eq_left (min_le_right _ _)

/-- C7: a live, non-expired entry under the looked-up identifier is
returned unchanged with the supplied configuration ignored; consequently,
calling GetOrCreateConversation(id, cfgA) on a miss and then
GetOrCreateConversation(id, cfgB) before expiry (with cfgB looking up id)
returns the very conversation created from cfgA, with cfgA's settings, and
leaves the store as the first call left it. -/
theorem getOrCreateConversation_idempotent_hit (defMaxAge : Int) (ccfg : Config)
    (st : ConversationsCache) (now now' : Int) (id : String)
    (cfgA cfgB : ConversationConfig) :
    (∀ conv, cacheGet st now (applyDefaults defMaxAge ccfg id cfgB).ID = some conv →
      GetOrCreateConversation defMaxAge ccfg st now id cfgB = (conv, st)) ∧
    (cacheGet st now (applyDefaults defMaxAge ccfg id cfgA).ID = none →
      cfgB.ID = "" ∨ cfgB.ID = id →
      now' < now + (applyDefaults defMaxAge ccfg id cfgA).MaxAge →
      (GetOrCreateConversation defMaxAge ccfg st now id cfgA).1
          = NewConversation (applyDefaults defMaxAge ccfg id cfgA) ∧
      GetOrCreateConversation defMaxAge ccfg
          (GetOrCreateConversation defMaxAge ccfg st now id cfgA).2 now' id cfgB
        = ((GetOrCreateConversation defMaxAge ccfg st now id cfgA).1,
           (GetOrCreateConversation defMaxAge ccfg st now id cfgA).2)) := by
  constructor
  · intro conv hhit
    exact getOrCreate_hit _ _ _ _ _ _ _ hhit
  · intro hmiss hB hlive
    have hfirst := getOrCreate_miss defMaxAge ccfg st now id cfgA hmiss
    have hBid : (applyDefaults defMaxAge ccfg id cfgB).ID = id := by
      rw [applyDefaults_ID]
      rcases hB with hB | hB <;> simp [hB]
    refine ⟨by rw [hfirst], ?_⟩
    rw [hfirst]
    apply getOrCreate_hit
    rw [hBid, cacheGet_set_same, if_pos hlive]

/-- C7 witness: the idempotent-hit theorem's two-call clause at an empty
store, id "conv1", two different configurations and times 0 and 10 against
a TTL of 100. -/
theorem getOrCreateConversation_idempotent_hit_witness :
    (GetOrCreateConversation 3600 wClientCfg ⟨[]⟩ 0 "conv1" wCfgA).1
        = NewConversation (applyDefaults 3600 wClientCfg "conv1" wCfgA) ∧
    GetOrCreateConversation 3600 wClientCfg
        (GetOrCreateConversation 3600 wClientCfg ⟨[]⟩ 0 "conv1" wCfgA).2 10 "conv1" wCfgB
      = ((GetOrCreateConversation 3600 wClientCfg ⟨[]⟩ 0 "conv1" wCfgA).1,
         (GetOrCreateConversation 3600 wClientCfg ⟨[]⟩ 0 "conv1" wCfgA).2) :=
  (getOrCreateConversation_idempotent_hit 3600 wClientCfg ⟨[]⟩ 0 10 "conv1" wCfgA wCfgB).2
    (by decide) (Or.inl rfl) (by decide)

/-- C8: ChangeConversationModel returns the not-found error exactly when no
live entry exists for the id; on a live entry it returns the store with that
conversation's model field set and every other key's lookup unchanged. -/
theorem changeConversationModel_not_found_iff (st : ConversationsCache)
    (now : Int) (id model : String) :
    (ChangeConversationModel st now id model
        = .error ("conversation(id: " ++ id ++ ") not found")
      ↔ cacheGet st now id = none) ∧
    (∀ conv, cacheGet st now id = some conv →
      ∃ st', ChangeConversationModel st now id model = .ok st' ∧
        cacheGet st' now id = some (SetModel conv model) ∧
        (∀ k t, k ≠ id → cacheGet st' t k = cacheGet st t k)) := by
  cases hget : cacheGet st now id with
  | none =>
    have herr : ChangeConversationModel st now id model
        = .error ("conversation(id: " ++ id ++ ") not found") := by
      unfold ChangeConversationModel GetConversation
      rw [hget]
    refine ⟨⟨fun _ => rfl, fun _ => herr⟩, ?_⟩
    intro conv hc
    exact Option.noConfusion hc
  | some conv0 =>
    have hok : ChangeConversationModel st now id model
        = .ok ⟨st.entries.map (fun e =>
            if e.1 = id then (e.1, ⟨SetModel e.2.conversation model, e.2.expireAt⟩)
            else e)⟩ := by
      unfold ChangeConversationModel GetConversation
      rw [hget]
    constructor
    · constructor
      · intro h
        rw [hok] at h
        exact Except.noConfusion h
      · intro h
        exact Option.noConfusion h
    · intro conv hc
      obtain rfl : conv0 = conv := Option.some.inj hc
      refine ⟨_, hok, ?_, ?_⟩
      · obtain ⟨e0, hfind, hlt, hconv⟩ := (cacheGet_eq_some st now id conv0).mp hget
        have he0 : e0.1 = id := by simpa using List.find?_some hfind
        apply (cacheGet_eq_some _ now id _).mpr
        refine ⟨(e0.1, ⟨SetModel e0.2.conversation model, e0.2.expireAt⟩),
          ?_, hlt, by rw [hconv]⟩
        rw [List.find?_map]
        have hpk : ((fun (e : String × CacheEntry) => e.1 == id) ∘
            (fun e => if e.1 = id then
              (e.1, ⟨SetModel e.2.conversation model, e.2.expireAt⟩) else e))
            = fun (e : String × CacheEntry) => e.1 == id := by
          funext e
          by_cases he : e.1 = id <;> simp [he]
        rw [hpk, hfind]
        simp [he0]
      · intro k t hk
        unfold cacheGet
        rw [List.find?_map]
        have hpk : ((fun (e : String × CacheEntry) => e.1 == k) ∘
            (fun e => if e.1 = id then
              (e.1, ⟨SetModel e.2.conversation model, e.2.expireAt⟩) else e))
            = fun (e : String × CacheEntry) => e.1 == k := by
          funext e
          by_cases he : e.1 = id <;> simp [he]
        rw [hpk]
        cases hfind : st.entries.find? (fun e => e.1 == k) with
        | none => rfl
        | some e1 =>
          have he1 : e1.1 = k := by simpa using List.find?_some hfind
          have hfe1 : (if e1.1 = id then
              (e1.1, (⟨SetModel e1.2.conversation model, e1.2.expireAt⟩ : CacheEntry))
              else e1) = e1 := by
            rw [if_neg (by rw [he1]; exact hk)]
          simp only [Option.map_some']
          rw [hfe1]

/-- C8 witness: the model-change theorem's live-entry clause applied to a
one-entry store at time 5 against an expiry of 100. -/
theorem changeConversationModel_not_found_iff_witness :
    ∃ st', ChangeConversationModel wSt 5 "conv1" "gpt-4" = .ok st' ∧
      cacheGet st' 5 "conv1" = some (SetModel wConv "gpt-4") ∧
      (∀ k t, k ≠ "conv1" → cacheGet st' t k = cacheGet wSt t k) :=
  (changeConversationModel_not_found_iff wSt 5 "conv1" "gpt-4").2 wConv (by decide)

/-- C9: on either model route, Ask propagates a remote failure unchanged
(the Except error branch carries no answer), and on remote success returns
the first choice's text with surrounding whitespace trimmed. -/
theorem ask_propagates_remote_result {E : Type}
    (chatC : CreateChatCompletionRequest → Except E CreateChatCompletionResponse)
    (complC : CreateCompletionRequest → Except E CreateCompletionResponse)
    (ccfg : Config) (cfg : AskConfig) :
    ((cfg.Model = ModelGPT3_5Turbo ∨ cfg.Model = ModelGPT3_5Turbo0301) →
      (∀ e, chatC (askChatRequest ccfg cfg) = .error e →
        Ask chatC complC ccfg cfg = .error e) ∧
      (∀ resp ch rest, chatC (askChatRequest ccfg cfg) = .ok resp →
        resp.Choices = ch :: rest →
        Ask chatC complC ccfg cfg = .ok ch.Content.trim)) ∧
    (¬ (cfg.Model = ModelGPT3_5Turbo ∨ cfg.Model = ModelGPT3_5Turbo0301) →
      (∀ e, complC (askCompletionRequest ccfg cfg) = .error e →
        Ask chatC complC ccfg cfg = .error e) ∧
      (∀ resp ch rest, complC (askCompletionRequest ccfg cfg) = .ok resp →
        resp.Choices = ch :: rest →
        Ask chatC complC ccfg cfg = .ok ch.Text.trim)) := by
  constructor
  · intro hm
    constructor
    · intro e he
      unfold Ask
      rw [if_pos hm, he]
    · intro resp ch rest hr hch
      unfold Ask
      rw [if_pos hm, hr]
      show Except.ok (resp.Choices.headD ⟨""⟩).Content.trim = _
      rw [hch]
      rfl
  · intro hm
    constructor
    · intro e he
      unfold Ask
      rw [if_neg hm, he]
    · intro resp ch rest hr hch
      unfold Ask
      rw [if_neg hm, hr]
      show Except.ok (resp.Choices.headD ⟨""⟩).Text.trim = _
      rw [hch]
      rfl

/-- C9 witness: the propagation theorem applied on the chat route to a
succeeding collaborator and on the completion route to a failing one. -/
theorem ask_propagates_remote_result_witness :
    Ask wChatOK wComplErr wClientCfg ⟨"gpt-3.5-turbo", "", [], 0⟩
      = .ok (ChatChoice.mk " hi ").Content.trim ∧
    Ask wChatOK wComplErr wClientCfg ⟨"text-davinci-003", "q", [], 0⟩
      = .error "remote failure" :=
  ⟨((ask_propagates_remote_result wChatOK wComplErr wClientCfg
      ⟨"gpt-3.5-turbo", "", [], 0⟩).1 (Or.inl rfl)).2 ⟨[⟨" hi "⟩]⟩ ⟨" hi "⟩ [] rfl rfl,
   ((ask_propagates_remote_result wChatOK wComplErr wClientCfg
      ⟨"text-davinci-003", "q", [], 0⟩).2 (by decide)).1 "remote failure" rfl⟩

/-- C10: when cfg.ID is non-empty and different from id, and no live entry
sits under the lookup key cfg.ID, GetOrCreateConversation misses, creates a
fresh conversation and inserts it under id; a second identical call still
misses (the insertion went under id, not the lookup key) and creates and
inserts afresh. -/
theorem getOrCreateConversation_key_mismatch (defMaxAge : Int) (ccfg : Config)
    (st : ConversationsCache) (now now' : Int) (id : String)
    (cfg : ConversationConfig)
    (h1 : cfg.ID ≠ "") (h2 : cfg.ID ≠ id)
    (h3 : cacheGet st now cfg.ID = none)
    (h4 : cacheGet st now' cfg.ID = none) :
    GetOrCreateConversation defMaxAge ccfg st now id cfg
      = (NewConversation (applyDefaults defMaxAge ccfg id cfg),
         cacheSet st now id (NewConversation (applyDefaults defMaxAge ccfg id cfg))
           (applyDefaults defMaxAge ccfg id cfg).MaxAge) ∧
    cacheGet (GetOrCreateConversation defMaxAge ccfg st now id cfg).2 now'
        (applyDefaults defMaxAge ccfg id cfg).ID = none ∧
    GetOrCreateConversation defMaxAge ccfg
        (GetOrCreateConversation defMaxAge ccfg st now id cfg).2 now' id cfg
      = (NewConversation (applyDefaults defMaxAge ccfg id cfg),
         cacheSet (GetOrCreateConversation defMaxAge ccfg st now id cfg).2 now' id
           (NewConversation (applyDefaults defMaxAge ccfg id cfg))
           (applyDefaults defMaxAge ccfg id cfg).MaxAge) := by
  have hid : (applyDefaults defMaxAge ccfg id cfg).ID = cfg.ID := by
    rw [applyDefaults_ID, if_neg h1]
  have hfirst := getOrCreate_miss defMaxAge ccfg st now id cfg (by rw [hid]; exact h3)
  have hmiss2 : cacheGet (GetOrCreateConversation defMaxAge ccfg st now id cfg).2 now'
      (applyDefaults defMaxAge ccfg id cfg).ID = none := by
    rw [hfirst]
    rw [hid, cacheGet_set_other _ _ _ _ _ _ _ h2, h4]
  refine ⟨hfirst, hmiss2, ?_⟩
  exact getOrCreate_miss _ _ _ _ _ _ hmiss2

/-- C10 witness: the key-mismatch theorem applied to the empty store with
id "conv1" and a configuration whose ID is "other". -/
theorem getOrCreateConversation_key_mismatch_witness :
    GetOrCreateConversation 3600 wClientCfg ⟨[]⟩ 0 "conv1" wCfgOther
      = (NewConversation (applyDefaults 3600 wClientCfg "conv1" wCfgOther),
         cacheSet ⟨[]⟩ 0 "conv1"
           (NewConversation (applyDefaults 3600 wClientCfg "conv1" wCfgOther))
           (applyDefaults 3600 wClientCfg "conv1" wCfgOther).MaxAge) ∧
    cacheGet (GetOrCreateConversation 3600 wClientCfg ⟨[]⟩ 0 "conv1" wCfgOther).2 10
        (applyDefaults 3600 wClientCfg "conv1" wCfgOther).ID = none ∧
    GetOrCreateConversation 3600 wClientCfg
        (GetOrCreateConversation 3600 wClientCfg ⟨[]⟩ 0 "conv1" wCfgOther).2 10
        "conv1" wCfgOther
      = (NewConversation (applyDefaults 3600 wClientCfg "conv1" wCfgOther),
         cacheSet (GetOrCreateConversation 3600 wClientCfg ⟨[]⟩ 0 "conv1" wCfgOther).2
           10 "conv1" (NewConversation (applyDefaults 3600 wClientCfg "conv1" wCfgOther))
           (applyDefaults 3600 wClientCfg "conv1" wCfgOther).MaxAge) :=
  getOrCreateConversation_key_mismatch 3600 wClientCfg ⟨[]⟩ 0 10 "conv1" wCfgOther
    (by decide) (by decide) (by decide) (by decide)

end ChatgptClient
